import Mathlib

/-!
Verification development for the `accounts` app of the jwt-auth-rest-api
repository: a shallow embedding in Lean 4 of the email-verification token
lifecycle (`accounts/token.py`, `accounts/models.py`), the registration and
activation flows (`accounts/serializers.py`, `accounts/views.py`), the login
flow (`accounts/serializers.py`), and the custom user manager
(`accounts/manager.py`), together with theorems settling the specification's
claims about them.

Time is modelled in seconds as `Nat`; the current instant `now` is threaded
explicitly.  External collaborators (Django's password hasher, its default
token generator, the JWT issuer, the URL resolver) are modelled at the
granularity of their contracts, executably.
-/

namespace JwtAuth

/-- The value Django's `default_token_generator` (the external identity
collaborator) binds a token to: the user's primary key, hashed password,
last-login instant and the generator's timestamp.  Two users whose bound
state differs yield different proofs. -/
structure ProofData where
  pk : Nat
  password : String
  lastLogin : Nat
  ts : Nat
deriving Repr, DecidableEq

/-- A row of the custom user table (`accounts/models.py`, `CustomUser`). -/
structure UserRec where
  pk : Nat
  email : String
  password : String
  first_name : String
  last_name : String
  lastLogin : Nat
  is_active : Bool
  is_staff : Bool
  is_superuser : Bool
  is_email_verify : Bool
deriving Repr, DecidableEq

/-- `default_token_generator.make_token(user)`: the proof bound to the
user's current state, at timestamp `ts`. -/
def mkProof (u : UserRec) (ts : Nat) : ProofData :=
  ⟨u.pk, u.password, u.lastLogin, ts⟩

/-- The JSON payload wrapped by `ExpiringTokenGenerator.make_token`
(`accounts/token.py`): the inner proof string and the expiry instant. -/
structure Payload where
  token : ProofData
  expires_at : Nat
deriving Repr, DecidableEq

/-- The space of token strings presented to the server.  `encoded p` stands
for exactly the strings `base64.urlsafe_b64encode(json.dumps(payload))`
produced by `ExpiringTokenGenerator.make_token`; `djangoRaw pr` stands for
a bare `default_token_generator` token (a base36 timestamp, a dash and a
hex digest — such a string is never a well-formed base64url encoding of a
JSON object with the two required keys, so base64/JSON decoding of it
fails); `garbage s` stands for any other string. -/
inductive Token where
  | encoded (p : Payload)
  | djangoRaw (pr : ProofData)
  | garbage (s : String)
deriving Repr, DecidableEq

/-- The decode steps of `check_token`'s `try` block
(`base64.urlsafe_b64decode`, `json.loads`, the two key lookups and
`isoparse`): they succeed exactly on strings produced by the encoder. -/
def decodePayload : Token → Option Payload
  | Token.encoded p => some p
  | Token.djangoRaw _ => none
  | Token.garbage _ => none

/-- `ExpiringTokenGenerator.make_token` (`accounts/token.py` lines 11-18):
wraps the collaborator's proof together with `expires_at = now + 1 hour`
(3600 seconds) in an encoded payload. -/
def make_token (now : Nat) (u : UserRec) : Token :=
  Token.encoded ⟨mkProof u now, now + 3600⟩

/-- A Python exception, as far as this code distinguishes them. -/
inductive PyExc where
  | decodeError
  | typeError (msg : String)
  | valueError (msg : String)
  | interruptedError (msg : String)
  | integrityError (msg : String)
  | operationalError (msg : String)
  | exception (msg : String)
deriving Repr, DecidableEq

/-- The body of `ExpiringTokenGenerator.check_token`'s `try` block
(`accounts/token.py` lines 21-28): decode the payload (any failure raises),
return `False` if `now > expires_at`, else return `True`.  Note that the
extracted `token_value` (the inner proof) and the `user` argument are never
consulted. -/
def check_tokenE (now : Nat) (_user : UserRec) (t : Token) : Except PyExc Bool :=
  match decodePayload t with
  | none => Except.error PyExc.decodeError
  | some p => if now > p.expires_at then Except.ok false else Except.ok true

/-- `ExpiringTokenGenerator.check_token` including its `except Exception:
return False` handler (`accounts/token.py` lines 20-30), as a computation
that may in principle propagate an exception: it never does, every raised
exception being mapped to the value `False`. -/
def check_tokenImpl (now : Nat) (user : UserRec) (t : Token) : Except PyExc Bool :=
  match check_tokenE now user t with
  | Except.ok b => Except.ok b
  | Except.error _ => Except.ok false

/-- `ExpiringTokenGenerator.check_token` as the boolean its callers see. -/
def check_token (now : Nat) (user : UserRec) (t : Token) : Bool :=
  match check_tokenImpl now user t with
  | Except.ok b => b
  | Except.error _ => false

/-- The expiry instant carried inside a token, when it decodes. -/
def expiryOf (t : Token) : Option Nat :=
  (decodePayload t).map Payload.expires_at

/-- `CustomUser.generate_token` (`accounts/models.py` lines 64-74): returns
`default_token_generator.make_token(self)` — the bare Django token, not the
expiring wrapper. -/
def generate_token (u : UserRec) (ts : Nat) : Token :=
  Token.djangoRaw (mkProof u ts)

/-- The user table of the relational persistence collaborator. -/
structure DB where
  users : List UserRec
deriving Repr, DecidableEq

/-- Primary-key lookup (`get_object_or_404(CustomUser, pk=uid)` without the
404 wrapping). -/
def findUser (db : DB) (pk : Nat) : Option UserRec :=
  db.users.find? (fun u => u.pk == pk)

/-- Existing row replaced after `user.save()`. -/
def saveUser (db : DB) (u : UserRec) : DB :=
  ⟨db.users.map (fun v => if v.pk == u.pk then u else v)⟩

/-- The `uidb64` path segment after `force_str(urlsafe_base64_decode(·))`:
either it decodes to a primary key or any step of the decoding raises one
of the caught exception types. -/
inductive UidB64 where
  | ok (pk : Nat)
  | bad (s : String)
deriving Repr, DecidableEq

/-- An HTTP response as the activation endpoint builds it. -/
structure HttpResponse where
  status : Nat
  message : String
deriving Repr, DecidableEq

/-- The user the activation view resolves from the path (`views.py` lines
51-55): `None` when the uid is malformed or no row matches. -/
def activationUser (db : DB) (uidb64 : UidB64) : Option UserRec :=
  match uidb64 with
  | UidB64.ok pk => findUser db pk
  | UidB64.bad _ => none

/-- `ActivateAccount.get` (`accounts/views.py` lines 50-62): resolve the
user, check the token with `ExpiringTokenGenerator.check_token`; on success
set `is_active` and `is_email_verify` and save; otherwise answer the single
generic invalid-link response with the database untouched. -/
def activateAccount (now : Nat) (db : DB) (uidb64 : UidB64) (t : Token) :
    HttpResponse × DB :=
  match activationUser db uidb64 with
  | some u =>
      if check_token now u t then
        let u' := { u with is_active := true, is_email_verify := true }
        (⟨200, "Account activated successfully"⟩, saveUser db u')
      else
        (⟨400, "Activation link is invalid"⟩, db)
  | none => (⟨400, "Activation link is invalid"⟩, db)

/-- The password-hashing collaborator (`user.set_password`): an injective
opaque transform of the raw password. -/
def set_password (raw : String) : String :=
  "pbkdf2_sha256$" ++ raw

/-- `BaseUserManager.normalize_email`: split at the last `@`
(`email.rsplit("@", 1)`), lower-case the domain part, leave everything else
alone; an email with no `@` is returned unchanged. -/
def normalize_email (e : String) : String :=
  let rev := e.data.reverse
  if rev.any (fun c => c = '@') then
    let domainRev := rev.takeWhile (fun c => c ≠ '@')
    let beforeRev := rev.dropWhile (fun c => c ≠ '@')
    String.mk (beforeRev.reverse ++ (domainRev.reverse.map Char.toLower))
  else e

/-- The non-flag extra fields `create_user` receives through
`**extra_field`, each `none` when the caller does not supply it. -/
structure ExtraFields where
  first_name : Option String := none
  last_name : Option String := none
  is_active : Option Bool := none
  is_staff : Option Bool := none
  is_superuser : Option Bool := none
  is_email_verify : Option Bool := none
deriving Repr, DecidableEq

/-- `UserCustomManager.create_user` (`accounts/manager.py` lines 25-54):
reject a missing email with `ValueError`, normalize the email, build the
row (model defaults for omitted flags are `False`), hash the password and
save; the unique constraint on email raises `IntegrityError` at save time
when a row with that email already exists. -/
def create_user (db : DB) (email : String) (password : String)
    (extra : ExtraFields) : Except PyExc (UserRec × DB) :=
  if email = "" then
    Except.error (PyExc.valueError "The Email field must be set")
  else
    let em := normalize_email email
    let u : UserRec :=
      { pk := db.users.length + 1
        email := em
        password := set_password password
        first_name := extra.first_name.getD ""
        last_name := extra.last_name.getD ""
        lastLogin := 0
        is_active := extra.is_active.getD false
        is_staff := extra.is_staff.getD false
        is_superuser := extra.is_superuser.getD false
        is_email_verify := extra.is_email_verify.getD false }
    if db.users.any (fun v => v.email == em) then
      Except.error (PyExc.integrityError "duplicate key value violates unique constraint")
    else
      Except.ok (u, ⟨db.users ++ [u]⟩)

/-- `UserCustomManager.create_superuser` (`accounts/manager.py` lines
56-88): default `is_staff`, `is_superuser`, `is_email_verify` and
`is_active` to `True` when not supplied, raise `ValueError` when `is_staff`
or `is_superuser` is supplied as anything but `True`, then delegate to
`create_user`. -/
def create_superuser (db : DB) (email : String) (password : String)
    (extra : ExtraFields) : Except PyExc (UserRec × DB) :=
  let e1 : ExtraFields :=
    { extra with
        is_staff := some (extra.is_staff.getD true)
        is_superuser := some (extra.is_superuser.getD true)
        is_email_verify := some (extra.is_email_verify.getD true)
        is_active := some (extra.is_active.getD true) }
  if e1.is_staff ≠ some true then
    Except.error (PyExc.valueError "Superuser must have is_staff=True")
  else if e1.is_superuser ≠ some true then
    Except.error (PyExc.valueError "Superuser must have is_superuser=True.")
  else
    create_user db email password e1

/-- The registration request body (`UserRegistrationSerializer` fields). -/
structure RegInput where
  email : String
  password : String
  password2 : String
  first_name : String
  last_name : String := ""
deriving Repr, DecidableEq

/-- Outcome of a registration request: the created user together with the
activation token placed in the email, or a field-keyed `ValidationError`
detail map. -/
inductive RegOutcome where
  | created (u : UserRec) (emailedToken : Token)
  | failure (detail : List (String × String))
deriving Repr, DecidableEq

/-- `UserRegistrationSerializer.create` (`accounts/serializers.py` lines
124-161) together with `send_activation_email` (lines 86-122), under the
`@transaction.atomic` decorator: create the user; convert `IntegrityError`
to the duplicate-email `ValidationError` and any other exception to the
generic one; then build the activation link and send the mail.  SMTP-level
transport faults are swallowed by `send_mail(..., fail_silently=True)`;
any exception raised in the email step (`emailStepRaises`, e.g. URL
reversal failing) is re-raised as a `ValidationError`, which leaves the
decorated function by exception — so the atomic block rolls the user row
back and the caller sees the original `db`. -/
def serializerCreate (now : Nat) (db : DB) (inp : RegInput)
    (emailStepRaises : Bool) : RegOutcome × DB :=
  match create_user db inp.email inp.password
      { first_name := some inp.first_name, last_name := some inp.last_name } with
  | Except.error (PyExc.integrityError _) =>
      (RegOutcome.failure [("non_field_errors", "Email is Already exists")], db)
  | Except.error _ =>
      (RegOutcome.failure [("non_field_errors", "Something went wrong")], db)
  | Except.ok (u, db') =>
      if emailStepRaises then
        (RegOutcome.failure [("email", "Failed to send activation email")], db)
      else
        (RegOutcome.created u (generate_token u now), db')

/-- The `user_registration` view entry (`views.py` lines 23-41) down
through serializer validation (`serializers.py` lines 47-84): the
`UniqueValidator` on email, the external password-policy collaborator
(`validate_password`, modelled by the `passwordPolicyOk` verdict), and the
`password == password2` check, then `serializerCreate`. -/
def register (now : Nat) (db : DB) (inp : RegInput)
    (passwordPolicyOk : Bool) (emailStepRaises : Bool) : RegOutcome × DB :=
  if db.users.any (fun v => v.email == inp.email) then
    (RegOutcome.failure [("email", "Email is already exists")], db)
  else if ¬ passwordPolicyOk then
    (RegOutcome.failure [("password", "password policy violation")], db)
  else if inp.password ≠ inp.password2 then
    (RegOutcome.failure [("password2", "Password Does Not Match")], db)
  else
    serializerCreate now db inp emailStepRaises

/-- Modelled from the spec: the credential-check collaborator behind
`django.contrib.auth.authenticate` (the authentication backend is wired in
the project settings, which are not under `src/`); per §4.4 step 3 it
checks only that the email resolves to an account whose hashed credential
matches the presented password. -/
def authenticate (db : DB) (email : String) (password : String) :
    Option UserRec :=
  match db.users.find? (fun u => u.email == email) with
  | some u => if u.password == set_password password then some u else none
  | none => none

/-- `UserLoginSerializers.validate` (`accounts/serializers.py` lines
194-230): with both fields present and non-empty, look the account up by
email (absence is its own failure), authenticate, then check
`is_email_verify` and `is_active`; otherwise the missing-fields failure. -/
def loginValidate (db : DB) (email? : Option String)
    (password? : Option String) :
    Except (List (String × String)) UserRec :=
  let email := email?.getD ""
  let password := password?.getD ""
  if email ≠ "" && password ≠ "" then
    match db.users.find? (fun u => u.email == email) with
    | none => Except.error [("login", "User with this email does not exist")]
    | some _ =>
        match authenticate db email password with
        | none => Except.error [("login", "Invalid login credentials")]
        | some user =>
            if ¬ user.is_email_verify then
              Except.error [("email", "please verify your email")]
            else if ¬ user.is_active then
              Except.error [("user", "User is deactivated")]
            else
              Except.ok user
  else
    Except.error [("email", "field is required"), ("password", "field is required")]

/-- Modelled from the spec: the external JWT issuer
(`RefreshToken.for_user`) mints a refresh token bound to the account
identity. -/
def refreshTokenFor (u : UserRec) : String :=
  "refresh." ++ toString u.pk

/-- Modelled from the spec: the access token derived from the refresh token
(`refresh.access_token`), bound to the same account identity. -/
def accessTokenFor (u : UserRec) : String :=
  "access." ++ toString u.pk

/-- What a successful login answers: the email and the two session
tokens. -/
structure SessionTokens where
  email : String
  access : String
  refresh : String
deriving Repr, DecidableEq

/-- `UserLoginSerializers.create` (`accounts/serializers.py` lines
232-248): mint the refresh token for the validated user and derive the
access token from it. -/
def loginCreate (u : UserRec) : SessionTokens :=
  ⟨u.email, accessTokenFor u, refreshTokenFor u⟩

/-- The `UserLogin` view: serializer validation then token minting. -/
def login (db : DB) (email? : Option String) (password? : Option String) :
    Except (List (String × String)) SessionTokens :=
  (loginValidate db email? password?).map loginCreate

/-- A value passed as a model keyword argument in `objects.create`. -/
inductive KwVal where
  | str (s : String)
  | usr (pk : Nat)
deriving Repr, DecidableEq

/-- The concrete field names of the `Notes` model (`accounts/models.py`
lines 92-95). -/
def notesFieldNames : List String :=
  ["notes", "notes_type", "create_date", "created_by"]

/-- A persisted row of the `Notes` table. -/
structure NoteRow where
  notes : String
  notes_type : String
  created_by : Nat
deriving Repr, DecidableEq

/-- Django's model-constructor contract behind `Notes.objects.create`: a
keyword argument whose name is not a field of the model raises
`TypeError('Notes() got unexpected keyword arguments: ...')`; otherwise the
row is built from the keywords and appended to the table. -/
def notesObjectsCreate (kwargs : List (String × KwVal))
    (table : List NoteRow) : Except PyExc (NoteRow × List NoteRow) :=
  match kwargs.find? (fun kv => ¬ notesFieldNames.contains kv.1) with
  | some kv =>
      Except.error (PyExc.typeError
        ("Notes() got unexpected keyword arguments: " ++ kv.1))
  | none =>
      let getStr (k : String) : String :=
        match kwargs.find? (fun kv => kv.1 == k) with
        | some (_, KwVal.str s) => s
        | _ => ""
      let getUsr (k : String) : Nat :=
        match kwargs.find? (fun kv => kv.1 == k) with
        | some (_, KwVal.usr pk) => pk
        | _ => 0
      let row : NoteRow :=
        { notes := getStr "notes"
          notes_type := getStr "notes_type"
          created_by := getUsr "created_by" }
      Except.ok (row, table ++ [row])

/-- The message a `PyExc` renders as when interpolated into an f-string. -/
def PyExc.msg : PyExc → String
  | PyExc.decodeError => "decode error"
  | PyExc.typeError m => m
  | PyExc.valueError m => m
  | PyExc.interruptedError m => m
  | PyExc.integrityError m => m
  | PyExc.operationalError m => m
  | PyExc.exception m => m

/-- `Notes.create_note` (`accounts/models.py` lines 111-141): reject a type
tag outside the enumeration with `ValueError` before any persistence call;
otherwise call `cls.objects.create(notes=notes, type=type,
created_by=user)` — note the keyword `type`, though the model field is
named `notes_type` — rewrapping `InterruptedError` as `IntegrityError`,
`OperationalError` as `OperationalError`, and any other exception as a
bare `Exception`. -/
def create_note (notes : String) (ty : String) (userPk : Nat)
    (table : List NoteRow) : Except PyExc (NoteRow × List NoteRow) :=
  let valid_type := ["personal", "work", "other"]
  if ¬ valid_type.contains ty then
    Except.error (PyExc.valueError ("Invalid Notes Type " ++ ty ++ " provided"))
  else
    match notesObjectsCreate
        [("notes", KwVal.str notes), ("type", KwVal.str ty),
         ("created_by", KwVal.usr userPk)] table with
    | Except.ok r => Except.ok r
    | Except.error (PyExc.interruptedError m) =>
        Except.error (PyExc.integrityError ("Database intergrity error: " ++ m))
    | Except.error (PyExc.operationalError m) =>
        Except.error (PyExc.operationalError ("Database operational error: " ++ m))
    | Except.error e =>
        Except.error (PyExc.exception ("An Exception error: " ++ e.msg))

/-- The login outcome mapping as the specification words it (§4.4, §6):
reject on a missing field; then on no account with the email; then on a
credential mismatch against the stored hash; then on an unverified email;
then on an inactive account; otherwise succeed with the email and the two
freshly minted session tokens.  Stated over the found row directly, to be
compared with the implementation's re-authentication path. -/
def loginSpecOutcome (db : DB) (email? : Option String)
    (password? : Option String) :
    Except (List (String × String)) SessionTokens :=
  let email := email?.getD ""
  let password := password?.getD ""
  if email = "" ∨ password = "" then
    Except.error [("email", "field is required"), ("password", "field is required")]
  else
    match db.users.find? (fun u => u.email == email) with
    | none => Except.error [("login", "User with this email does not exist")]
    | some u =>
        if u.password ≠ set_password password then
          Except.error [("login", "Invalid login credentials")]
        else if u.is_email_verify = false then
          Except.error [("email", "please verify your email")]
        else if u.is_active = false then
          Except.error [("user", "User is deactivated")]
        else
          Except.ok ⟨u.email, accessTokenFor u, refreshTokenFor u⟩

/-- A freshly registered (inactive, unverified) account fixture. -/
def userA : UserRec :=
  { pk := 1, email := "a@x.com", password := set_password "Str0ng!PassA",
    first_name := "A", last_name := "", lastLogin := 0,
    is_active := false, is_staff := false, is_superuser := false,
    is_email_verify := false }

/-- A second account, whose bound state differs from `userA`'s. -/
def userB : UserRec :=
  { pk := 2, email := "b@x.com", password := set_password "Str0ng!PassB",
    first_name := "B", last_name := "", lastLogin := 0,
    is_active := false, is_staff := false, is_superuser := false,
    is_email_verify := false }

/-- The spec's end-to-end registration input (§8). -/
def regInputA : RegInput :=
  { email := "a@x.com", password := "Str0ng!Pass",
    password2 := "Str0ng!Pass", first_name := "A" }

/-- C1: the claim says `check_token` returns true only when the embedded
proof is currently valid for the presented account.  The code violates it:
`check_token` extracts `token_value` and never consults it (nor the `user`
argument), so a well-formed unexpired payload carrying a proof minted for a
different account (`userB`) is accepted for `userA`. -/
theorem c1_proof_ignored :
    check_token 0 userA (Token.encoded ⟨mkProof userB 0, 3600⟩) = true ∧
      mkProof userB 0 ≠ mkProof userA 0 :=
  ⟨rfl, by decide⟩

/-- C3: round-trip — validating a token immediately after issuing it for
the same account, with no clock advance, succeeds. -/
theorem c3_round_trip :
    ∀ (now : Nat) (u : UserRec), check_token now u (make_token now u) = true := by
  intro now u
  simp only [check_token, check_tokenImpl, check_tokenE, make_token, decodePayload]
  have h : ¬ now > now + 3600 := by omega
  simp [h]

/-- C4: expiry semantics — `make_token` stamps `expires_at = now + 1 hour`
(3600 s), and on every decodable token `check_token` returns true exactly
when the checking instant is `≤ expires_at` (false when strictly later),
whatever proof the payload carries — in particular for a matching one. -/
theorem c4_expiry_semantics :
    (∀ (now : Nat) (u : UserRec), expiryOf (make_token now u) = some (now + 3600)) ∧
      (∀ (now : Nat) (u : UserRec) (p : Payload),
        check_token now u (Token.encoded p) = decide (now ≤ p.expires_at)) := by
  constructor
  · intro now u
    rfl
  · intro now u p
    simp only [check_token, check_tokenImpl, check_tokenE, decodePayload]
    by_cases h : now > p.expires_at
    · simp only [if_pos h]
      simp
      omega
    · simp only [if_neg h]
      simp
      omega

/-- C5: decode totality — `check_token` never propagates an exception (the
`except Exception` handler turns every raised error into the value
`False`), and every input the decoder rejects yields the typed failure
`false`. -/
theorem c5_decode_total :
    ∀ (now : Nat) (u : UserRec) (t : Token),
      check_tokenImpl now u t = Except.ok (check_token now u t) ∧
        (decodePayload t = none → check_token now u t = false) := by
  intro now u t
  constructor
  · cases hE : check_tokenE now u t with
    | ok b => simp [check_tokenImpl, check_token, hE]
    | error e => simp [check_tokenImpl, check_token, hE]
  · intro hd
    simp [check_token, check_tokenImpl, check_tokenE, hd]

/-- Witness for C5 at a concrete garbage input. -/
theorem c5_decode_total_witness :
    decodePayload (Token.garbage "!!not-a-token!!") = none ∧
      check_tokenImpl 7 userA (Token.garbage "!!not-a-token!!") =
        Except.ok (check_token 7 userA (Token.garbage "!!not-a-token!!")) ∧
      check_token 7 userA (Token.garbage "!!not-a-token!!") = false :=
  ⟨rfl, (c5_decode_total 7 userA (Token.garbage "!!not-a-token!!")).1,
    (c5_decode_total 7 userA (Token.garbage "!!not-a-token!!")).2 rfl⟩

/-- The account row the end-to-end registration of `regInputA` creates. -/
def regUserA : UserRec :=
  { pk := 1, email := "a@x.com", password := set_password "Str0ng!Pass",
    first_name := "A", last_name := "", lastLogin := 0,
    is_active := false, is_staff := false, is_superuser := false,
    is_email_verify := false }

/-- C2: the claim says the token emailed at registration, presented to the
activation endpoint within 1 hour, activates the account.  The code
violates it: registration emails the bare `default_token_generator` token
(`CustomUser.generate_token`), while the endpoint validates with
`ExpiringTokenGenerator.check_token`, whose base64/JSON decoding fails on
that bare token — so the very token from the activation email is answered
with the generic invalid-link response 10 seconds after issuance, and the
account stays inactive and unverified. -/
theorem c2_emailed_token_never_activates :
    register 0 ⟨[]⟩ regInputA true false =
        (RegOutcome.created regUserA (generate_token regUserA 0), ⟨[regUserA]⟩) ∧
      generate_token regUserA 0 = Token.djangoRaw (mkProof regUserA 0) ∧
      activateAccount 10 ⟨[regUserA]⟩ (UidB64.ok regUserA.pk)
          (generate_token regUserA 0) =
        (⟨400, "Activation link is invalid"⟩, ⟨[regUserA]⟩) ∧
      (10 : Nat) ≤ 3600 ∧
      regUserA.is_active = false ∧ regUserA.is_email_verify = false :=
  ⟨rfl, rfl, rfl, by omega, rfl, rfl⟩

/-- C6 counterexample: at the concrete registration of `regInputA` into an
empty database with the email step failing, `create` returns the
`ValidationFailure`, but the database afterwards is still empty — the
newly created account does not exist, contrary to the claim that the row
has already been committed. -/
theorem c6_commit_refuted :
    (serializerCreate 0 ⟨[]⟩ regInputA true).1 =
        RegOutcome.failure [("email", "Failed to send activation email")] ∧
      (serializerCreate 0 ⟨[]⟩ regInputA true).2 = (⟨[]⟩ : DB) ∧
      ((serializerCreate 0 ⟨[]⟩ regInputA true).2.users.any
          (fun u => u.email == "a@x.com")) = false :=
  ⟨rfl, rfl, rfl⟩

/-- C6 (amended): when account creation succeeds but the email step fails,
`create` returns the `ValidationFailure` and — because the raised
`ValidationError` leaves the `@transaction.atomic` block by exception —
the account row is rolled back: the database is exactly as before the
registration. -/
theorem c6_rollback :
    ∀ (now : Nat) (db : DB) (inp : RegInput),
      inp.email ≠ "" →
      (db.users.any (fun v => v.email == normalize_email inp.email)) = false →
      serializerCreate now db inp true =
        (RegOutcome.failure [("email", "Failed to send activation email")], db) := by
  intro now db inp h1 h2
  simp [serializerCreate, create_user, h1, h2]

/-- Witness for C6 at the concrete registration input. -/
theorem c6_rollback_witness :
    regInputA.email ≠ "" ∧
      ((⟨[]⟩ : DB).users.any (fun v => v.email == normalize_email regInputA.email)) = false ∧
      serializerCreate 5 ⟨[]⟩ regInputA true =
        (RegOutcome.failure [("email", "Failed to send activation email")], ⟨[]⟩) :=
  ⟨by decide, rfl, c6_rollback 5 ⟨[]⟩ regInputA (by decide) rfl⟩

/-- C7: whenever the activation request resolves to no account (malformed
or unknown uid) or its token fails `check_token` (malformed, expired or
otherwise invalid), the endpoint answers the one generic invalid-link
response — the same for every failure cause — and the database, hence any
referenced account's flags, is left untouched. -/
theorem c7_generic_failure :
    ∀ (now : Nat) (db : DB) (uidb64 : UidB64) (t : Token),
      (∀ u, activationUser db uidb64 = some u → check_token now u t = false) →
      activateAccount now db uidb64 t =
        (⟨400, "Activation link is invalid"⟩, db) := by
  intro now db uid t h
  unfold activateAccount
  cases hu : activationUser db uid with
  | none => rfl
  | some u => simp [h u hu]

/-- Witness for C7: the three failure causes — malformed uid, unknown
account, garbage token for an existing account — all produce the identical
generic response with the database unchanged. -/
theorem c7_generic_failure_witness :
    activateAccount 3 ⟨[userA]⟩ (UidB64.bad "%%%") (Token.garbage "zz") =
        (⟨400, "Activation link is invalid"⟩, ⟨[userA]⟩) ∧
      activateAccount 3 ⟨[userA]⟩ (UidB64.ok 99) (Token.garbage "zz") =
        (⟨400, "Activation link is invalid"⟩, ⟨[userA]⟩) ∧
      activateAccount 3 ⟨[userA]⟩ (UidB64.ok 1) (Token.garbage "zz") =
        (⟨400, "Activation link is invalid"⟩, ⟨[userA]⟩) :=
  ⟨c7_generic_failure 3 ⟨[userA]⟩ (UidB64.bad "%%%") (Token.garbage "zz")
      (fun _ _ => rfl),
    c7_generic_failure 3 ⟨[userA]⟩ (UidB64.ok 99) (Token.garbage "zz")
      (fun _ _ => rfl),
    c7_generic_failure 3 ⟨[userA]⟩ (UidB64.ok 1) (Token.garbage "zz")
      (fun _ _ => rfl)⟩

/-- C8: the login flow agrees everywhere with the spec's ordered outcome
map — missing fields, then account existence by email, then credential
match against the stored hash, then `is_email_verify`, then `is_active`,
each with its own field-keyed failure, and on success the email together
with the freshly minted identity-bound access and refresh tokens. -/
theorem c8_login_order :
    ∀ (db : DB) (email? password? : Option String),
      login db email? password? = loginSpecOutcome db email? password? := by
  intro db e? p?
  simp only [login, loginValidate, loginSpecOutcome, authenticate, loginCreate]
  by_cases he : e?.getD "" = ""
  · simp [he, Except.map]
  · by_cases hp : p?.getD "" = ""
    · simp [he, hp, Except.map]
    · simp only [he, hp, ne_eq, not_false_eq_true, or_self, if_false, false_or,
        or_false]
      cases hf : db.users.find? (fun u => u.email == e?.getD "") with
      | none =>
          simp [hf, he, hp, Except.map]
      | some u =>
          by_cases hpw : u.password = set_password (p?.getD "")
          · simp [hf, hpw, he, hp, Except.map]
            cases hv : u.is_email_verify <;> cases ha : u.is_active <;>
              simp [Except.map, loginCreate]
          · simp [hf, hpw, he, hp, Except.map]

/-- C9: `create_note` does reject the out-of-enumeration tag `"urgent"`
with `ValueError` before any persistence call, for every text, owner and
table state; but for an in-enumeration tag the claim fails — the
persistence call passes the keyword `type` where the model field is
`notes_type`, so the constructor raises and `create_note` surfaces a
wrapped generic `Exception` instead of ever returning a created note. -/
theorem c9_create_note_outcomes :
    (∀ (text : String) (owner : Nat) (table : List NoteRow),
        create_note text "urgent" owner table =
          Except.error (PyExc.valueError "Invalid Notes Type urgent provided")) ∧
      create_note "hello" "personal" 1 [] =
        Except.error (PyExc.exception
          "An Exception error: Notes() got unexpected keyword arguments: type") :=
  ⟨fun _ _ _ => rfl, rfl⟩

/-- The row `create_superuser` without overrides appends to `db`. -/
def superuserRow (db : DB) (email pw : String) : UserRec :=
  { pk := db.users.length + 1, email := normalize_email email,
    password := set_password pw, first_name := "", last_name := "",
    lastLogin := 0, is_active := true, is_staff := true,
    is_superuser := true, is_email_verify := true }

/-- C10: `create_superuser` without explicit overrides yields an account
with `is_staff`, `is_superuser`, `is_email_verify` and `is_active` all
true — active and email-verified with no activation event — and raises
`ValueError` whenever `is_staff` or `is_superuser` is explicitly supplied
as anything other than true. -/
theorem c10_create_superuser :
    (∀ (db : DB) (email pw : String),
        email ≠ "" →
        (db.users.any (fun v => v.email == normalize_email email)) = false →
        ∃ u db', create_superuser db email pw {} = Except.ok (u, db') ∧
          u.is_staff = true ∧ u.is_superuser = true ∧
          u.is_email_verify = true ∧ u.is_active = true) ∧
      (∀ (db : DB) (email pw : String) (extra : ExtraFields),
        extra.is_staff = some false ∨ extra.is_superuser = some false →
        ∃ m, create_superuser db email pw extra =
          Except.error (PyExc.valueError m)) := by
  constructor
  · intro db email pw h1 h2
    refine ⟨superuserRow db email pw, ⟨db.users ++ [superuserRow db email pw]⟩,
            ?_, rfl, rfl, rfl, rfl⟩
    simp [create_superuser, create_user, superuserRow, h1, h2]
  · intro db email pw extra h
    rcases h with h | h
    · exact ⟨"Superuser must have is_staff=True", by simp [create_superuser, h]⟩
    · by_cases hs : extra.is_staff = some false
      · exact ⟨"Superuser must have is_staff=True",
          by simp [create_superuser, hs]⟩
      · have hst : extra.is_staff.getD true = true := by
          cases hstf : extra.is_staff with
          | none => rfl
          | some b =>
              cases b with
              | false => exact absurd hstf hs
              | true => rfl
        exact ⟨"Superuser must have is_superuser=True.",
          by simp [create_superuser, h, hst]⟩

/-- Witness for C10: a superuser created with no overrides in an empty
database carries the four flags, and supplying `is_staff := False` raises
`ValueError`. -/
theorem c10_create_superuser_witness :
    (∃ u db', create_superuser ⟨[]⟩ "root@x.com" "pw" {} = Except.ok (u, db') ∧
        u.is_staff = true ∧ u.is_superuser = true ∧
        u.is_email_verify = true ∧ u.is_active = true) ∧
      (∃ m, create_superuser ⟨[]⟩ "root@x.com" "pw"
          ⟨none, none, none, some false, none, none⟩ =
        Except.error (PyExc.valueError m)) :=
  ⟨c10_create_superuser.1 ⟨[]⟩ "root@x.com" "pw" (by decide) rfl,
    c10_create_superuser.2 ⟨[]⟩ "root@x.com" "pw"
      ⟨none, none, none, some false, none, none⟩ (Or.inl rfl)⟩

end JwtAuth
